import Mathlib

/-!
Shallow embedding of the worker_proxy Cloudflare Worker (src/index.ts):
the D1-backed rate-limit counter store, the bot-protection and
rate-limiting middleware, the scheduled cleanup job, and the R2 upload
proxy route. Timestamps are unix seconds (Nat) or unix milliseconds
(Int), passed explicitly wherever the code calls Date.now().
-/

namespace WorkerProxy

/-- A row of the image_rate_limit D1 table: count and expires_at (unix seconds). -/
structure RateRecord where
  count : Nat
  expires_at : Nat
deriving Repr, DecidableEq

/-- The image_rate_limit table, keyed by the rate-limit key. -/
abbrev DB := List (String × RateRecord)

/-- SELECT count, expires_at FROM image_rate_limit WHERE key = ? -/
def DB.find (db : DB) (key : String) : Option RateRecord :=
  List.lookup key db

/-- DELETE FROM image_rate_limit WHERE key = ? -/
def DB.erase (db : DB) (key : String) : DB :=
  db.filter (fun p => p.1 != key)

/-- INSERT OR REPLACE INTO image_rate_limit (key, count, expires_at) VALUES (?, ?, ?) -/
def DB.upsert (db : DB) (key : String) (rec : RateRecord) : DB :=
  (key, rec) :: DB.erase db key

/-- UPDATE image_rate_limit SET count = ?, expires_at = ? WHERE key = ? -/
def DB.update (db : DB) (key : String) (rec : RateRecord) : DB :=
  db.map (fun p => if p.1 = key then (p.1, rec) else p)

/-- UPDATE image_rate_limit SET count = ? WHERE key = ? (the decrement path
touches only count; each row keeps its own expires_at). -/
def DB.updateCount (db : DB) (key : String) (c : Nat) : DB :=
  db.map (fun p => if p.1 = key then (p.1, ⟨c, p.2.expires_at⟩) else p)

/-- The value D1RateLimitStore.increment returns to the rate-limiter middleware;
resetTimeMs is the millisecond value inside new Date(expires * 1000). -/
structure IncrementResult where
  success : Bool
  limit : Nat
  remaining : Nat
  totalHits : Nat
  resetTimeMs : Nat
deriving Repr, DecidableEq

/-- The SELECT phase of D1RateLimitStore.increment (src/index.ts lines 45-47). -/
def incrementRead (db : DB) (key : String) : Option RateRecord :=
  DB.find db key

/-- The branch-and-write phase of D1RateLimitStore.increment (src/index.ts
lines 49-75), applied to the row the SELECT phase returned. Fresh path when no
row or the row already expired; otherwise UPDATE with count+1 and, as the code
binds it, expires_at = now + ttl. Math.max(0, 100 - newCount) is Nat
subtraction. -/
def incrementWrite (db : DB) (ttlSeconds now : Nat) (key : String)
    (row : Option RateRecord) : IncrementResult × DB :=
  let expires := now + ttlSeconds
  match row with
  | some r =>
    if r.expires_at < now then
      (⟨true, 100, 99, 1, expires * 1000⟩, DB.upsert db key ⟨1, expires⟩)
    else
      let newCount := r.count + 1
      (⟨decide (newCount ≤ 100), 100, 100 - newCount, newCount, expires * 1000⟩,
        DB.update db key ⟨newCount, expires⟩)
  | none =>
    (⟨true, 100, 99, 1, expires * 1000⟩, DB.upsert db key ⟨1, expires⟩)

/-- D1RateLimitStore.increment (src/index.ts lines 41-76): one SELECT followed
by an insert-or-update decided from the row it read. -/
def increment (db : DB) (ttlSeconds now : Nat) (key : String) : IncrementResult × DB :=
  incrementWrite db ttlSeconds now key (incrementRead db key)

/-- D1RateLimitStore.decrement (src/index.ts lines 78-88): SELECT count, and if
a row exists with count > 0, UPDATE count = count - 1. No expiry check. -/
def decrement (db : DB) (key : String) : DB :=
  match DB.find db key with
  | some r => if 0 < r.count then DB.updateCount db key (r.count - 1) else db
  | none => db

/-- D1RateLimitStore.resetKey (src/index.ts lines 90-92). -/
def resetKey (db : DB) (key : String) : DB :=
  DB.erase db key

/-- Char-list test: the first list begins with the second. -/
def listBegins : List Char → List Char → Bool
  | _, [] => true
  | [], _ :: _ => false
  | a :: as, b :: bs => a == b && listBegins as bs

/-- Char-list substring occurrence test (pattern first, subject second). -/
def listHasSub (t : List Char) : List Char → Bool
  | [] => t.isEmpty
  | c :: rest => listBegins (c :: rest) t || listHasSub t rest

/-- JavaScript String.prototype.includes. -/
def strHasSub (s t : String) : Bool :=
  listHasSub t.data s.data

/-- JavaScript String.prototype.startsWith. -/
def strBegins (s p : String) : Bool :=
  listBegins s.data p.data

/-- JavaScript String.prototype.toLowerCase, as used on ASCII header values. -/
def strLower (s : String) : String :=
  String.mk (s.data.map Char.toLower)

/-- Helper for strSplit: accumulate the current segment in reverse. -/
def splitCharAux (sep : Char) : List Char → List Char → List String
  | [], acc => [String.mk acc.reverse]
  | c :: rest, acc =>
    if c == sep then String.mk acc.reverse :: splitCharAux sep rest []
    else splitCharAux sep rest (c :: acc)

/-- JavaScript String.prototype.split on a one-character separator. -/
def strSplit (s : String) (sep : Char) : List String :=
  splitCharAux sep s.data []

/-- An incoming request as the middleware sees it, after the ?? defaults of
src/index.ts lines 102-104: a missing cf-connecting-ip header is already
"unknown-ip", a missing user-agent or accept header is already "". -/
structure Request where
  path : String
  ip : String
  ua : String
  accept : String
deriving Repr, DecidableEq

/-- c.req.path.startsWith of the uploads route (src/index.ts line 106). -/
def isUploadRequest (r : Request) : Bool :=
  strBegins r.path "/uploads/"

/-- accept.toLowerCase().includes of the image token (src/index.ts line 107). -/
def hasImageAccept (r : Request) : Bool :=
  strHasSub (strLower r.accept) "image"

/-- isUploadRequest or hasImageAccept (src/index.ts line 108). -/
def isLikelyImageRequest (r : Request) : Bool :=
  isUploadRequest r || hasImageAccept r

/-- The case-insensitive automation-pattern test on the user-agent
(src/index.ts line 112): substring search for each alternative. -/
def uaPatternHit (ua : String) : Bool :=
  ["python", "curl", "bot", "spider", "crawler", "scraper"].any
    (fun p => strHasSub (strLower ua) p)

/-- isBlockedUA (src/index.ts line 112). -/
def isBlockedUA (r : Request) : Bool :=
  uaPatternHit r.ua && !isLikelyImageRequest r

/-- The blocking condition of src/index.ts lines 119-123; an empty string is
falsy in JavaScript, so the missing-header and empty-header cases coincide. -/
def botBlocked (r : Request) : Bool :=
  (r.ua == "" && !isLikelyImageRequest r) ||
    isBlockedUA r ||
    (r.accept == "" && !isLikelyImageRequest r)

/-- The rate-limit key built at src/index.ts line 135. -/
def fingerprint (r : Request) : String :=
  r.ip ++ "::" ++ r.ua

/-- What the middleware does with a request: 403 block, 429 rate-limit denial,
or pass-through to the routed handler. -/
inductive MwOutcome where
  | forbidden
  | rateLimited
  | admitted
deriving Repr, DecidableEq

/-- Modelled from the spec: the rate-limiter middleware core invoked at
src/index.ts lines 139-145 lives in the external hono-rate-limiter package,
which is not part of this repository. Per the RateLimiter contract it performs
a single increment on the configured store with the generated key and denies
with 429 exactly when the post-increment count exceeds the configured limit. -/
def rateLimiterStep (db : DB) (now lim ttl : Nat) (key : String) : MwOutcome × DB :=
  let (res, db2) := increment db ttl now key
  if lim < res.totalHits then (.rateLimited, db2) else (.admitted, db2)

/-- The rate-limiting and bot-protection middleware of src/index.ts lines
96-146: health check bypass, bot block, then the limiter with limit 100,
window 65 s (store ttl 65), key ip::ua. -/
def middleware (db : DB) (now : Nat) (r : Request) : MwOutcome × DB :=
  if r.path == "/health" then (.admitted, db)
  else if botBlocked r then (.forbidden, db)
  else rateLimiterStep db now 100 65 (fingerprint r)

/-- Serve a sequence of requests through the middleware, threading the D1
table; the clock is held fixed (requests inside one window). -/
def serveRequests (db : DB) (now : Nat) : List Request → List MwOutcome × DB
  | [] => ([], db)
  | r :: rest =>
    let (o, db2) := middleware db now r
    let (os, db3) := serveRequests db2 now rest
    (o :: os, db3)

/-- R2 object metadata the sweep consults: key and obj.uploaded.getTime(). -/
structure R2ObjectMeta where
  key : String
  uploadedMs : Int
deriving Repr, DecidableEq

/-- The image_metadata side table: key to nullable expires_at (unix seconds). -/
abbrev MetaTable := List (String × Option Nat)

/-- The side-table check of src/index.ts lines 177-182: no row, a null (or
zero, since 0 is falsy in JavaScript) expires_at, or an expires_at whose
millisecond value is already past. -/
def sideTableStale (meta : MetaTable) (key : String) (nowMs : Int) : Bool :=
  match List.lookup key meta with
  | none => true
  | some none => true
  | some (some v) => v == 0 || decide ((v : Int) * 1000 < nowMs)

/-- cleanupOldFiles (src/index.ts lines 165-193): the keys batched for
deletion, given the objects listed under the uploads/ prefix and the side
table. An object newer than thirty minutes is skipped; otherwise it is pushed
when the side-table check passes. -/
def cleanupOldFiles (meta : MetaTable) (nowMs : Int) : List R2ObjectMeta → List String
  | [] => []
  | o :: rest =>
    let tail := cleanupOldFiles meta nowMs rest
    if nowMs - 30 * 60 * 1000 < o.uploadedMs then tail
    else if sideTableStale meta o.key nowMs then o.key :: tail
    else tail

/-- The deletion-eligibility condition in the words of the claim: upload time
older than the 30-minute retention threshold, and either no side-table expiry
record (no row, or a row with no expiry set) or an expiry already past. -/
def specDeletionEligible (meta : MetaTable) (nowMs : Int) (o : R2ObjectMeta) : Bool :=
  decide (o.uploadedMs ≤ nowMs - 30 * 60 * 1000) &&
    (match List.lookup o.key meta with
     | none => true
     | some none => true
     | some (some v) => decide ((v : Int) * 1000 < nowMs))

/-- guessContentType (the catch-all revision of the app shipped alongside
index.ts): extension table keyed by key.split on the dot, pop, toLowerCase. -/
def guessContentType (key : String) : Option String :=
  let ext := strLower ((strSplit key '.').getLastD "")
  if ext = "jpg" then some "image/jpeg"
  else if ext = "jpeg" then some "image/jpeg"
  else if ext = "png" then some "image/png"
  else if ext = "webp" then some "image/webp"
  else if ext = "gif" then some "image/gif"
  else if ext = "svg" then some "image/svg+xml"
  else if ext = "avif" then some "image/avif"
  else if ext = "ico" then some "image/x-icon"
  else none

/-- JavaScript a || b for a nullable string a: null and "" are both falsy. -/
def jsOrElse (a : Option String) (b : String) : String :=
  match a with
  | some s => if s == "" then b else s
  | none => b

/-- Content type computed by the catch-all GET handler of the sibling app
revision: object.httpMetadata?.contentType, else guessContentType, else the
binary fallback. -/
def contentTypeStar (metaCT : Option String) (key : String) : String :=
  jsOrElse metaCT (jsOrElse (guessContentType key) "application/octet-stream")

/-- Content type computed by the /uploads/* GET handler (src/index.ts line
222): object.httpMetadata?.contentType, else the binary fallback — no
extension table on this path. -/
def contentTypeUploads (metaCT : Option String) : String :=
  jsOrElse metaCT "application/octet-stream"

/-- The resolution order in the words of the claim: backend-reported metadata
content type if present, else the extension table, else the binary fallback. -/
def specContentType (metaCT : Option String) (key : String) : String :=
  match metaCT with
  | some s => s
  | none =>
    let ext := strLower ((strSplit key '.').getLastD "")
    if ext = "jpg" then "image/jpeg"
    else if ext = "jpeg" then "image/jpeg"
    else if ext = "png" then "image/png"
    else if ext = "webp" then "image/webp"
    else if ext = "gif" then "image/gif"
    else if ext = "svg" then "image/svg+xml"
    else if ext = "avif" then "image/avif"
    else if ext = "ico" then "image/x-icon"
    else "application/octet-stream"

/-- Backend metadata if present, else the binary fallback: the claim-side
description of a resolution with no extension step. -/
def specMetaOrBinary (metaCT : Option String) : String :=
  match metaCT with
  | some s => s
  | none => "application/octet-stream"

/-- The R2 bucket: stored object key to its httpMetadata contentType. An entry
being present means the object exists and has a body. -/
abbrev Bucket := List (String × Option String)

/-- R2 bucket.list with a key prefix restriction: the keys of the stored
objects whose key begins with p (src/index.ts line 211). -/
def bucketList (bucket : Bucket) (p : String) : List String :=
  (bucket.filter (fun e => strBegins e.1 p)).map Prod.fst

/-- urlPath.split on the slash, then index 0 (src/index.ts line 211). -/
def firstSegment (s : String) : String :=
  (strSplit s '/').headD ""

/-- The response of the GET /uploads/* handler on its non-throwing path. -/
inductive UploadsResponse where
  | badRequest (error : String) (key : String)
  | notFound (error : String) (key : String) (similarFiles : List String)
  | ok (contentType : String) (filename : String)
deriving Repr, DecidableEq

/-- The GET /uploads/* handler (src/index.ts lines 196-227) on the
non-throwing path. urlPath is the decoded request path with the /uploads/
route marker stripped, so the R2 key is uploads/ ++ urlPath; the 404 body
carries the similarFiles listing under uploads/ plus the first path segment;
the 200 path resolves the content type from metadata or the binary fallback
and the filename from the last slash segment of the key. -/
def uploadsGet (bucket : Bucket) (urlPath : String) : UploadsResponse :=
  let key := "uploads/" ++ urlPath
  if key == "" || key == "uploads/" then .badRequest "Invalid path" key
  else
    match List.lookup key bucket with
    | none =>
      .notFound "File not found" key
        (bucketList bucket ("uploads/" ++ firstSegment urlPath))
    | some metaCT =>
      .ok (contentTypeUploads metaCT)
        (jsOrElse ((strSplit key '/').getLast?) "download")

/-- The JSON body of the 500 response. -/
structure ServerErrorBody where
  error : String
  details : String
deriving Repr, DecidableEq

/-- The catch branch of the /uploads/* handler (src/index.ts lines 228-231):
the 500 body built from the thrown value; errMessage is the message of the
thrown Error, or none when the thrown value is not an Error instance. -/
def uploadsErrorBody (errMessage : Option String) : ServerErrorBody :=
  ⟨"Failed to fetch file", errMessage.getD "Unknown error"⟩

/-! Helper lemmas about the embedded store operations. -/

/-- A lookup finds the head entry when the keys agree. -/
theorem lookup_cons_self {β : Type} (a : String) (b : β) (l : List (String × β)) :
    List.lookup a ((a, b) :: l) = some b := by
  simp [List.lookup]

/-- A lookup skips the head entry when the keys differ. -/
theorem lookup_cons_ne {β : Type} (a k : String) (b : β) (l : List (String × β))
    (h : a ≠ k) : List.lookup a ((k, b) :: l) = List.lookup a l := by
  have hb : (a == k) = false := by simp [h]
  simp [List.lookup, hb]

/-- A lookup right after an insert-or-replace finds the fresh record. -/
theorem DB.find_upsert (db : DB) (k : String) (rec : RateRecord) :
    DB.find (DB.upsert db k rec) k = some rec := by
  unfold DB.find DB.upsert
  exact lookup_cons_self k rec _

/-- A keyed UPDATE rewrites exactly the records a lookup on that key can see. -/
theorem DB.find_update (db : DB) (k : String) (rec : RateRecord) :
    DB.find (DB.update db k rec) k = (DB.find db k).map (fun _ => rec) := by
  induction db with
  | nil => rfl
  | cons p rest ih =>
    obtain ⟨a, b⟩ := p
    by_cases h : a = k
    · subst h
      simp only [DB.update, List.map_cons, if_true, eq_self_iff_true]
      unfold DB.find
      rw [lookup_cons_self, lookup_cons_self]
      rfl
    · simp only [DB.update, List.map_cons]
      rw [if_neg h]
      unfold DB.find
      rw [lookup_cons_ne k a b _ (Ne.symm h), lookup_cons_ne k a b _ (Ne.symm h)]
      exact ih

/-- A count-only UPDATE rewrites the count and keeps the expiry a lookup sees. -/
theorem DB.find_updateCount (db : DB) (k : String) (c : Nat) :
    DB.find (DB.updateCount db k c) k
      = (DB.find db k).map (fun r => ⟨c, r.expires_at⟩) := by
  induction db with
  | nil => rfl
  | cons p rest ih =>
    obtain ⟨a, b⟩ := p
    by_cases h : a = k
    · subst h
      simp only [DB.updateCount, List.map_cons, if_true, eq_self_iff_true]
      unfold DB.find
      rw [lookup_cons_self, lookup_cons_self]
      rfl
    · simp only [DB.updateCount, List.map_cons]
      rw [if_neg h]
      unfold DB.find
      rw [lookup_cons_ne k a b _ (Ne.symm h), lookup_cons_ne k a b _ (Ne.symm h)]
      exact ih

/-- String append acts as append on the underlying character lists. -/
theorem strAppendData (s t : String) : (s ++ t).data = s.data ++ t.data := by
  cases s
  cases t
  rfl

/-- Appending something to the uploads/ route marker gives the bare marker back
only for the empty suffix. -/
theorem uploadsAppendEqMarker (u : String) (h : "uploads/" ++ u = "uploads/") :
    u = "" := by
  have hd : ("uploads/" ++ u).data = "uploads/".data := congrArg String.data h
  rw [strAppendData] at hd
  have hnil : u.data = [] := by
    have h2 : "uploads/".data ++ u.data = "uploads/".data ++ [] := by
      rw [List.append_nil]
      exact hd
    exact List.append_cancel_left h2
  cases u
  simp only [String.data] at hnil
  rw [hnil]

/-- One middleware pass over the single live counter of the fingerprint:
the count rises by one, the expiry is rebound, and the request is admitted
while the new count stays within the limit. -/
theorem middleware_step (r : Request) (now k : Nat)
    (hH : (r.path == "/health") = false) (hB : botBlocked r = false)
    (hk : k + 1 ≤ 100) :
    middleware [(fingerprint r, ⟨k, now + 65⟩)] now r
      = (.admitted, [(fingerprint r, ⟨k + 1, now + 65⟩)]) := by
  have hfind : DB.find [(fingerprint r, (⟨k, now + 65⟩ : RateRecord))] (fingerprint r)
      = some ⟨k, now + 65⟩ := lookup_cons_self _ _ _
  have hexp : ¬ (now + 65 < now) := by omega
  have hlim : ¬ (100 < k + 1) := by omega
  simp only [middleware, hH, Bool.false_eq_true, if_false, hB,
    rateLimiterStep, increment, incrementRead, hfind, incrementWrite,
    hexp, if_false, DB.update, List.map_cons, List.map_nil, if_true,
    eq_self_iff_true, hlim]

/-- Serving n identical requests against the live counter at count k keeps
admitting and accumulating while k + n stays within the limit. -/
theorem serve_replicate (r : Request) (now : Nat)
    (hH : (r.path == "/health") = false) (hB : botBlocked r = false) :
    ∀ n k, k + n ≤ 100 →
      serveRequests [(fingerprint r, ⟨k, now + 65⟩)] now (List.replicate n r)
        = (List.replicate n .admitted, [(fingerprint r, ⟨k + n, now + 65⟩)]) := by
  intro n
  induction n with
  | zero =>
    intro k h
    simp [serveRequests]
  | succ m ih =>
    intro k h
    rw [List.replicate_succ]
    simp only [serveRequests]
    rw [middleware_step r now k hH hB (by omega)]
    rw [ih (k + 1) (by omega)]
    have : k + 1 + m = k + (m + 1) := by omega
    rw [this, List.replicate_succ]

/-- The read-read-write-write interleaving of two concurrent increment calls
on the same key: both SELECT phases run before either write phase. -/
def lostUpdateSchedule (db : DB) (ttl now : Nat) (k : String) : DB :=
  let r1 := incrementRead db k
  let r2 := incrementRead db k
  let db1 := (incrementWrite db ttl now k r1).2
  (incrementWrite db1 ttl now k r2).2

/-- Appending something to the uploads/ route marker never gives the empty key. -/
theorem uploadsAppendNeEmpty (u : String) : "uploads/" ++ u ≠ "" := by
  intro h
  have hd : ("uploads/" ++ u).data = ("" : String).data := congrArg String.data h
  rw [strAppendData] at hd
  simp at hd

/-! Claim theorems. -/

/-- Claim C1, counterexample: a live record (count 5, expires_at 200, clock at
100) is incremented by one, but its expires_at does not stay 200 — the UPDATE
rebinds it to now + ttl = 165, so the window boundary moves on a hit. -/
theorem c1_counterexample :
    ¬ (200 : Nat) < 100 ∧
    DB.find [("k", (⟨5, 200⟩ : RateRecord))] "k" = some ⟨5, 200⟩ ∧
    DB.find ((increment [("k", ⟨5, 200⟩)] 65 100 "k").2) "k" = some ⟨6, 165⟩ ∧
    (165 : Nat) ≠ 200 := by
  decide

/-- Claim C1, amended: when increment finds a live record (expires_at not yet
past), it increments count by exactly one but also rebinds expires_at to
now + ttlSeconds — the window slides on every hit instead of staying anchored
at the first request. -/
theorem c1_amended (db : DB) (k : String) (ttl now : Nat) (r : RateRecord)
    (hfind : DB.find db k = some r) (hlive : ¬ r.expires_at < now) :
    (increment db ttl now k).1.totalHits = r.count + 1 ∧
    DB.find (increment db ttl now k).2 k = some ⟨r.count + 1, now + ttl⟩ := by
  have hstep : increment db ttl now k
      = (⟨decide (r.count + 1 ≤ 100), 100, 100 - (r.count + 1), r.count + 1,
          (now + ttl) * 1000⟩, DB.update db k ⟨r.count + 1, now + ttl⟩) := by
    unfold increment incrementRead
    rw [hfind]
    unfold incrementWrite
    dsimp only
    rw [if_neg hlive]
  rw [hstep]
  refine ⟨rfl, ?_⟩
  rw [DB.find_update, hfind]
  rfl

/-- Claim C1, witness for the amended theorem at a concrete live record. -/
theorem c1_amended_witness :
    DB.find [("k", (⟨5, 200⟩ : RateRecord))] "k" = some ⟨5, 200⟩ ∧
    ¬ (200 : Nat) < 100 ∧
    ((increment [("k", (⟨5, 200⟩ : RateRecord))] 65 100 "k").1.totalHits = 5 + 1 ∧
      DB.find (increment [("k", (⟨5, 200⟩ : RateRecord))] 65 100 "k").2 "k"
        = some ⟨5 + 1, 100 + 65⟩) :=
  ⟨by decide, by decide,
    c1_amended [("k", ⟨5, 200⟩)] "k" 65 100 ⟨5, 200⟩ (by decide) (by decide)⟩

/-- Claim C3, confirmed: when no record exists, or the stored record has
already expired (expires_at strictly in the past), increment produces
totalHits 1, stores a fresh record with count 1 and expires_at now +
ttlSeconds, and never reuses the stale count. -/
theorem c3_fresh_reset (db : DB) (k : String) (ttl now : Nat)
    (h : DB.find db k = none ∨ ∃ r, DB.find db k = some r ∧ r.expires_at < now) :
    increment db ttl now k
      = (⟨true, 100, 99, 1, (now + ttl) * 1000⟩, DB.upsert db k ⟨1, now + ttl⟩) ∧
    DB.find (increment db ttl now k).2 k = some ⟨1, now + ttl⟩ := by
  have hmain : increment db ttl now k
      = (⟨true, 100, 99, 1, (now + ttl) * 1000⟩, DB.upsert db k ⟨1, now + ttl⟩) := by
    unfold increment incrementRead
    rcases h with h | ⟨r, hr, hexp⟩
    · rw [h]
      rfl
    · rw [hr]
      unfold incrementWrite
      dsimp only
      rw [if_pos hexp]
  refine ⟨hmain, ?_⟩
  rw [hmain]
  exact DB.find_upsert db k ⟨1, now + ttl⟩

/-- Claim C3, witness: a record that expired (expires_at 50, clock at 100)
with stale count 7 is reset to a fresh count of 1 and expiry 165. -/
theorem c3_fresh_reset_witness :
    (DB.find [("k", (⟨7, 50⟩ : RateRecord))] "k" = none ∨
      ∃ r, DB.find [("k", (⟨7, 50⟩ : RateRecord))] "k" = some r ∧
        r.expires_at < 100) ∧
    (increment [("k", (⟨7, 50⟩ : RateRecord))] 65 100 "k"
        = (⟨true, 100, 99, 1, (100 + 65) * 1000⟩,
            DB.upsert [("k", ⟨7, 50⟩)] "k" ⟨1, 100 + 65⟩) ∧
      DB.find (increment [("k", (⟨7, 50⟩ : RateRecord))] 65 100 "k").2 "k"
        = some ⟨1, 100 + 65⟩) :=
  ⟨Or.inr ⟨⟨7, 50⟩, by decide, by decide⟩,
    c3_fresh_reset [("k", ⟨7, 50⟩)] "k" 65 100
      (Or.inr ⟨⟨7, 50⟩, by decide, by decide⟩)⟩

/-- Claim C2, counterexample: eleven requests from one fingerprint inside one
window are all admitted — the eleventh is not denied, although burstLimit+1 =
11 exceeds the claimed burst limit of about 10 — and the only key the store
ever holds is the bare fingerprint, not a burst-scoped key. -/
theorem c2_counterexample :
    (serveRequests [] 1000
        (List.replicate 11 ⟨"/uploads/x.png", "1.2.3.4", "Mozilla", "image/png"⟩)).1
      = List.replicate 11 .admitted ∧
    (serveRequests [] 1000
        (List.replicate 11 ⟨"/uploads/x.png", "1.2.3.4", "Mozilla", "image/png"⟩)).2
      = [("1.2.3.4::Mozilla", ⟨11, 1065⟩)] ∧
    MwOutcome.admitted ≠ .rateLimited := by
  decide

/-- Claim C2, amended: the middleware has no burst tier. Every request that
passes the bot check triggers exactly one increment, keyed by the bare
fingerprint ip::ua, against the single sustained limiter (limit 100, window
65 s); any n ≤ 100 requests inside one window are all admitted, and every key
the store holds afterwards is that fingerprint — no burst-scoped key is ever
created. -/
theorem c2_amended (r : Request) (now n : Nat)
    (hH : (r.path == "/health") = false) (hB : botBlocked r = false)
    (hn : n ≤ 100) :
    (serveRequests [] now (List.replicate n r)).1 = List.replicate n .admitted ∧
    ∀ p ∈ (serveRequests [] now (List.replicate n r)).2, p.1 = fingerprint r := by
  cases n with
  | zero =>
    exact ⟨rfl, by intro p hp; simp [serveRequests] at hp⟩
  | succ m =>
    have hfirst : middleware [] now r
        = (.admitted, [(fingerprint r, ⟨1, now + 65⟩)]) := by
      have hlim : ¬ (100 < 1) := by omega
      simp only [middleware, hH, Bool.false_eq_true, if_false, hB,
        rateLimiterStep, increment, incrementRead, DB.find, List.lookup,
        incrementWrite, DB.upsert, DB.erase, List.filter_nil, hlim]
    have hrest := serve_replicate r now hH hB m 1 (by omega)
    have hall : serveRequests [] now (List.replicate (m + 1) r)
        = (List.replicate (m + 1) .admitted, [(fingerprint r, ⟨1 + m, now + 65⟩)]) := by
      rw [List.replicate_succ]
      simp only [serveRequests]
      rw [hfirst, hrest, List.replicate_succ]
    rw [hall]
    refine ⟨rfl, ?_⟩
    intro p hp
    simp only [List.mem_singleton] at hp
    rw [hp]

/-- Claim C2, witness for the amended theorem: eleven well-formed image
requests from one client inside one window. -/
theorem c2_amended_witness :
    ((Request.mk "/uploads/x.png" "1.2.3.4" "Mozilla" "image/png").path == "/health")
        = false ∧
    botBlocked ⟨"/uploads/x.png", "1.2.3.4", "Mozilla", "image/png"⟩ = false ∧
    (11 : Nat) ≤ 100 ∧
    ((serveRequests [] 1000
        (List.replicate 11 ⟨"/uploads/x.png", "1.2.3.4", "Mozilla", "image/png"⟩)).1
      = List.replicate 11 .admitted ∧
    ∀ p ∈ (serveRequests [] 1000
        (List.replicate 11 ⟨"/uploads/x.png", "1.2.3.4", "Mozilla", "image/png"⟩)).2,
      p.1 = fingerprint ⟨"/uploads/x.png", "1.2.3.4", "Mozilla", "image/png"⟩) :=
  ⟨by decide, by decide, by decide,
    c2_amended ⟨"/uploads/x.png", "1.2.3.4", "Mozilla", "image/png"⟩ 1000 11
      (by decide) (by decide) (by decide)⟩

/-- Claim C4, counterexample: a request for the object-serving route with an
empty user-agent and an empty accept header is not denied — the upload path
itself marks it a likely image request, so the bot check passes and the
middleware admits it. -/
theorem c4_counterexample :
    botBlocked ⟨"/uploads/a.png", "1.2.3.4", "", ""⟩ = false ∧
    (middleware [] 1000 ⟨"/uploads/a.png", "1.2.3.4", "", ""⟩).1 = .admitted ∧
    MwOutcome.admitted ≠ .forbidden := by
  decide

/-- Claim C4, amended: a request targeting the object-serving route is never
denied by the admission filter, whatever its user-agent and accept headers
(in particular with both empty, and with accept image/*); the Forbidden
denial for an empty user-agent applies exactly to requests that neither
target the object route nor accept images. -/
theorem c4_amended (r s : Request) (db db2 : DB) (now now2 : Nat)
    (hr : isUploadRequest r = true)
    (hs1 : isLikelyImageRequest s = false) (hs2 : s.ua = "")
    (hs3 : (s.path == "/health") = false) :
    botBlocked r = false ∧ (middleware db now r).1 ≠ .forbidden ∧
    botBlocked s = true ∧ (middleware db2 now2 s).1 = .forbidden := by
  have hlik : isLikelyImageRequest r = true := by
    simp [isLikelyImageRequest, hr]
  have hbr : botBlocked r = false := by
    simp [botBlocked, isBlockedUA, hlik]
  refine ⟨hbr, ?_, ?_, ?_⟩
  · unfold middleware
    by_cases hp : (r.path == "/health") = true
    · rw [if_pos hp]
      simp
    · rw [if_neg hp, hbr]
      simp only [Bool.false_eq_true, if_false]
      unfold rateLimiterStep
      rcases hinc : increment db 65 now (fingerprint r) with ⟨res, dbx⟩
      by_cases hl : 100 < res.totalHits
      · simp [hl]
      · simp [hl]
  · simp [botBlocked, hs2, hs1]
  · unfold middleware
    rw [if_neg (by simp_all), if_pos (by simp [botBlocked, hs2, hs1])]

/-- Claim C4, witness for the amended theorem: the claimed request (object
route, empty user-agent, empty accept) is admitted, and the same headers off
the object route are denied. -/
theorem c4_amended_witness :
    isUploadRequest ⟨"/uploads/a.png", "1.2.3.4", "", ""⟩ = true ∧
    isLikelyImageRequest ⟨"/other", "1.2.3.4", "", ""⟩ = false ∧
    (Request.mk "/other" "1.2.3.4" "" "").ua = "" ∧
    ((Request.mk "/other" "1.2.3.4" "" "").path == "/health") = false ∧
    (botBlocked ⟨"/uploads/a.png", "1.2.3.4", "", ""⟩ = false ∧
      (middleware [] 1000 ⟨"/uploads/a.png", "1.2.3.4", "", ""⟩).1 ≠ .forbidden ∧
      botBlocked ⟨"/other", "1.2.3.4", "", ""⟩ = true ∧
      (middleware [] 1000 ⟨"/other", "1.2.3.4", "", ""⟩).1 = .forbidden) :=
  ⟨by decide, by decide, rfl, by decide,
    c4_amended ⟨"/uploads/a.png", "1.2.3.4", "", ""⟩ ⟨"/other", "1.2.3.4", "", ""⟩
      [] [] 1000 1000 (by decide) (by decide) rfl (by decide)⟩

/-- Claim C5, counterexample: a stored object uploads/a.png with no
backend-reported content type is served by the /uploads/* handler as
application/octet-stream, although the extension table maps png to image/png —
the claimed metadata, extension table, fallback order does not hold on this
route. -/
theorem c5_counterexample :
    uploadsGet [("uploads/a.png", none)] "a.png"
      = .ok "application/octet-stream" "a.png" ∧
    guessContentType "uploads/a.png" = some "image/png" ∧
    ("application/octet-stream" : String) ≠ "image/png" := by
  decide

/-- Claim C5, amended: only the catch-all GET handler of the sibling app
revision resolves the content type as backend metadata, else extension table,
else the binary fallback; the /uploads/* handler of index.ts resolves backend
metadata, else the binary fallback, with no extension-table step (stated for
metadata that is not the JavaScript-falsy empty string). -/
theorem c5_amended (metaCT : Option String) (key : String) (h : metaCT ≠ some "") :
    contentTypeStar metaCT key = specContentType metaCT key ∧
    contentTypeUploads metaCT = specMetaOrBinary metaCT := by
  cases metaCT with
  | none =>
    refine ⟨?_, rfl⟩
    unfold contentTypeStar specContentType guessContentType jsOrElse
    dsimp only
    split_ifs <;> rfl
  | some s =>
    have hs : ¬ (s = "") := fun he => h (by rw [he])
    have hsb : (s == "") = false := by simp [hs]
    constructor
    · simp [contentTypeStar, specContentType, jsOrElse, hsb]
    · simp [contentTypeUploads, specMetaOrBinary, jsOrElse, hsb]

/-- Claim C5, witness for the amended theorem at a concrete key and absent
metadata. -/
theorem c5_amended_witness :
    (none : Option String) ≠ some "" ∧
    (contentTypeStar none "uploads/a.png" = specContentType none "uploads/a.png" ∧
      contentTypeUploads none = specMetaOrBinary none) :=
  ⟨by simp, c5_amended none "uploads/a.png" (by simp)⟩

/-- Claim C6, counterexample: the 500 body of the /uploads/* handler embeds
the thrown backend error message verbatim in its details field, so the
response is not a fixed generic message — it varies with the backend fault
and discloses it. -/
theorem c6_counterexample :
    (uploadsErrorBody (some "R2 bucket binding failed")).details
        = "R2 bucket binding failed" ∧
    uploadsErrorBody (some "R2 bucket binding failed")
        ≠ uploadsErrorBody (some "connection reset") := by
  decide

/-- Claim C6, amended: the 500 response carries the generic error string
together with a details field holding the underlying exception message
verbatim (or the fixed fallback when the thrown value is not an Error), so
backend error detail does appear in the client-facing body. -/
theorem c6_amended :
    ∀ m : String,
      uploadsErrorBody (some m) = ⟨"Failed to fetch file", m⟩ ∧
      uploadsErrorBody none = ⟨"Failed to fetch file", "Unknown error"⟩ :=
  fun _ => ⟨rfl, rfl⟩

/-- Claim C7, confirmed: the janitor batches exactly the objects whose upload
time is at or past the 30-minute retention threshold and whose side-table
state is no record, a record with no expiry set, or an expiry already past;
in particular an old object with a future side-table expiry is excluded and
an old object with no side record is included. Stated for a positive clock,
where the JavaScript-falsy expiry 0 coincides with an expiry in the past. -/
theorem c7_sweep_eligibility (meta : MetaTable) (nowMs : Int)
    (objs : List R2ObjectMeta) (h : 0 < nowMs) :
    cleanupOldFiles meta nowMs objs
      = (objs.filter (specDeletionEligible meta nowMs)).map R2ObjectMeta.key := by
  induction objs with
  | nil => rfl
  | cons o rest ih =>
    have hcond : specDeletionEligible meta nowMs o
        = (decide (o.uploadedMs ≤ nowMs - 30 * 60 * 1000)
            && sideTableStale meta o.key nowMs) := by
      unfold specDeletionEligible sideTableStale
      cases hL : List.lookup o.key meta with
      | none => rfl
      | some ov =>
        cases ov with
        | none => rfl
        | some v =>
          by_cases hv : v = 0
          · subst hv
            simp [h]
          · have hvb : (v == 0) = false := by simp [hv]
            simp [hvb]
    by_cases h1 : nowMs - 30 * 60 * 1000 < o.uploadedMs
    · have he : specDeletionEligible meta nowMs o = false := by
        rw [hcond]
        have hd : decide (o.uploadedMs ≤ nowMs - 30 * 60 * 1000) = false := by
          simp
          omega
        rw [hd, Bool.false_and]
      simp only [cleanupOldFiles, List.filter_cons, he, Bool.false_eq_true,
        if_false, if_pos h1]
      exact ih
    · have hd : decide (o.uploadedMs ≤ nowMs - 30 * 60 * 1000) = true := by
        simp
        omega
      by_cases h2 : sideTableStale meta o.key nowMs = true
      · have he : specDeletionEligible meta nowMs o = true := by
          rw [hcond, hd, h2]
          rfl
        simp only [cleanupOldFiles, List.filter_cons, he, if_true, if_neg h1, h2,
          List.map_cons]
        rw [ih]
      · have h2f : sideTableStale meta o.key nowMs = false := by
          simp only [Bool.not_eq_true] at h2
          exact h2
        have he : specDeletionEligible meta nowMs o = false := by
          rw [hcond, hd, h2f, Bool.and_false]
        simp only [cleanupOldFiles, List.filter_cons, he, Bool.false_eq_true,
          if_false, if_neg h1, h2f]
        exact ih

/-- Claim C7, witness: at clock 3000000 ms, an object uploaded 40 minutes
earlier with no side record is the only one batched; its sibling uploaded at
the same time but holding a future side-table expiry survives. -/
theorem c7_sweep_eligibility_witness :
    (0 : Int) < 3000000 ∧
    cleanupOldFiles [("uploads/b.png", some 4000)] 3000000
        [⟨"uploads/a.png", 600000⟩, ⟨"uploads/b.png", 600000⟩]
      = (([⟨"uploads/a.png", 600000⟩, ⟨"uploads/b.png", 600000⟩] :
            List R2ObjectMeta).filter
          (specDeletionEligible [("uploads/b.png", some 4000)] 3000000)).map
          R2ObjectMeta.key ∧
    cleanupOldFiles [("uploads/b.png", some 4000)] 3000000
        [⟨"uploads/a.png", 600000⟩, ⟨"uploads/b.png", 600000⟩]
      = ["uploads/a.png"] :=
  ⟨by decide,
    c7_sweep_eligibility [("uploads/b.png", some 4000)] 3000000
      [⟨"uploads/a.png", 600000⟩, ⟨"uploads/b.png", 600000⟩] (by decide),
    by decide⟩

/-- Claim C8, counterexample: a record that has long expired (expires_at 10,
so stale at any clock past 10) but still holds count 5 is decremented to 4 —
decrement performs no expiry check, so an expired record is not a no-op. -/
theorem c8_counterexample :
    (10 : Nat) < 100 ∧
    decrement [("k", (⟨5, 10⟩ : RateRecord))] "k" = [("k", ⟨4, 10⟩)] ∧
    [("k", (⟨4, 10⟩ : RateRecord))] ≠ [("k", (⟨5, 10⟩ : RateRecord))] := by
  decide

/-- Claim C8, amended: decrement decrements count by one whenever a record
with count > 0 exists, regardless of whether that record has expired (the
code never consults expires_at); it is a no-op on an absent or zero-count
record, never creates a record, and leaves the stored expiry unchanged. -/
theorem c8_amended (db : DB) (k : String) :
    (DB.find db k = none → decrement db k = db) ∧
    (∀ r, DB.find db k = some r → r.count = 0 → decrement db k = db) ∧
    (∀ r, DB.find db k = some r → 0 < r.count →
      DB.find (decrement db k) k = some ⟨r.count - 1, r.expires_at⟩) := by
  refine ⟨?_, ?_, ?_⟩
  · intro h
    unfold decrement
    rw [h]
  · intro r h hc
    unfold decrement
    rw [h]
    dsimp only
    rw [hc]
    simp
  · intro r h hc
    unfold decrement
    rw [h]
    dsimp only
    rw [if_pos hc, DB.find_updateCount, h]
    rfl

/-- Claim C8, witness for the amended theorem: a zero-count record is left
untouched. -/
theorem c8_amended_witness :
    DB.find [("k", (⟨0, 50⟩ : RateRecord))] "k" = some ⟨0, 50⟩ ∧
    decrement [("k", (⟨0, 50⟩ : RateRecord))] "k" = [("k", ⟨0, 50⟩)] :=
  ⟨by decide, (c8_amended [("k", ⟨0, 50⟩)] "k").2.1 ⟨0, 50⟩ (by decide) rfl⟩

/-- Claim C9, counterexample: splitting each increment into its SELECT phase
and its write phase as the code runs them, the read-read-write-write
interleaving of two increments on one key leaves count 6 from an initial 5,
while the serialized run of the same two increments leaves 7 — one update is
lost, so the read-modify-write is not effectively serialized. -/
theorem c9_counterexample :
    DB.find (lostUpdateSchedule [("k", (⟨5, 200⟩ : RateRecord))] 65 100 "k") "k"
      = some ⟨6, 165⟩ ∧
    DB.find ((increment ((increment [("k", (⟨5, 200⟩ : RateRecord))] 65 100 "k").2)
        65 100 "k").2) "k" = some ⟨7, 165⟩ ∧
    (6 : Nat) ≠ 5 + 2 := by
  decide

/-- Claim C9, amended: increment is an unsynchronized SELECT followed by a
plain UPDATE, with no transaction, conditional write, or compare-and-swap;
whenever both SELECT phases of two concurrent increments on a live record run
before either write phase, the final stored count is the initial count plus
one — the second write silently overwrites the first and an update is lost. -/
theorem c9_amended (db : DB) (k : String) (ttl now : Nat) (r : RateRecord)
    (hfind : DB.find db k = some r) (hlive : ¬ r.expires_at < now) :
    DB.find (lostUpdateSchedule db ttl now k) k = some ⟨r.count + 1, now + ttl⟩ := by
  unfold lostUpdateSchedule incrementRead
  rw [hfind]
  unfold incrementWrite
  dsimp only
  rw [if_neg hlive, if_neg hlive]
  rw [DB.find_update, DB.find_update, hfind]
  rfl

/-- Claim C9, witness for the amended theorem at a concrete live record. -/
theorem c9_amended_witness :
    DB.find [("k", (⟨5, 200⟩ : RateRecord))] "k" = some ⟨5, 200⟩ ∧
    ¬ (200 : Nat) < 100 ∧
    DB.find (lostUpdateSchedule [("k", (⟨5, 200⟩ : RateRecord))] 65 100 "k") "k"
      = some ⟨5 + 1, 100 + 65⟩ :=
  ⟨by decide, by decide,
    c9_amended [("k", ⟨5, 200⟩)] "k" 65 100 ⟨5, 200⟩ (by decide) (by decide)⟩

/-- Claim C10, confirmed: when the requested object is absent, the /uploads/*
handler answers 404 with the error message, the requested key, and a
similarFiles list holding exactly the keys of every stored object whose key
begins with uploads/ plus the first path segment of the requested key —
disclosing the other stored object names under that segment. -/
theorem c10_not_found_listing (bucket : Bucket) (urlPath : String)
    (h0 : urlPath ≠ "")
    (h1 : List.lookup ("uploads/" ++ urlPath) bucket = none) :
    uploadsGet bucket urlPath
      = .notFound "File not found" ("uploads/" ++ urlPath)
          (bucketList bucket ("uploads/" ++ firstSegment urlPath)) ∧
    ∀ k, k ∈ bucketList bucket ("uploads/" ++ firstSegment urlPath) ↔
      (k ∈ bucket.map Prod.fst ∧
        strBegins k ("uploads/" ++ firstSegment urlPath) = true) := by
  have hne1 : ("uploads/" ++ urlPath == "") = false := by
    simp [uploadsAppendNeEmpty urlPath]
  have hne2 : ("uploads/" ++ urlPath == "uploads/") = false := by
    have hne : "uploads/" ++ urlPath ≠ "uploads/" :=
      fun hc => h0 (uploadsAppendEqMarker urlPath hc)
    simp [hne]
  constructor
  · unfold uploadsGet
    dsimp only
    rw [hne1, hne2]
    simp only [Bool.or_self, Bool.false_eq_true, if_false]
    rw [h1]
  · intro k
    unfold bucketList
    simp only [List.mem_map, List.mem_filter]
    constructor
    · rintro ⟨e, ⟨he, hq⟩, rfl⟩
      exact ⟨⟨e, he, rfl⟩, hq⟩
    · rintro ⟨⟨e, he, rfl⟩, hq⟩
      exact ⟨e, ⟨he, hq⟩, rfl⟩

/-- Claim C10, witness: a miss on uploads/u1/missing.png lists the keys of
both stored objects of the u1 segment, including another object of the same
segment, and omits the u2 object. -/
theorem c10_not_found_listing_witness :
    ("u1/missing.png" : String) ≠ "" ∧
    List.lookup ("uploads/" ++ "u1/missing.png")
        ([("uploads/u1/a.png", none), ("uploads/u1/b.png", some "image/png"),
          ("uploads/u2/c.png", none)] : Bucket) = none ∧
    (uploadsGet
        [("uploads/u1/a.png", none), ("uploads/u1/b.png", some "image/png"),
          ("uploads/u2/c.png", none)] "u1/missing.png"
      = .notFound "File not found" ("uploads/" ++ "u1/missing.png")
          (bucketList
            [("uploads/u1/a.png", none), ("uploads/u1/b.png", some "image/png"),
              ("uploads/u2/c.png", none)]
            ("uploads/" ++ firstSegment "u1/missing.png"))) ∧
    bucketList
        [("uploads/u1/a.png", none), ("uploads/u1/b.png", some "image/png"),
          ("uploads/u2/c.png", none)]
        ("uploads/" ++ firstSegment "u1/missing.png")
      = ["uploads/u1/a.png", "uploads/u1/b.png"] :=
  ⟨by decide, by decide,
    (c10_not_found_listing
        [("uploads/u1/a.png", none), ("uploads/u1/b.png", some "image/png"),
          ("uploads/u2/c.png", none)] "u1/missing.png"
        (by decide) (by decide)).1,
    by decide⟩

end WorkerProxy
